import Mathlib

/-!
Verification of the RagChatbot hybrid-retrieval core.

Shallow embedding of:
  * `src/Server/app/services/qdrant_retriever.py` (class `QdrantRetriever`),
  * `src/app/services/generation.py` (class `RAGChatbot`),
  * `src/app/services/index.py` (class `QdrantRAGUploader`),
  * `src/search.py` (the standalone interactive search loop).

The embedding models machine floats as `Int` components (the similarity
arithmetic is abstracted; only ordering and structure of results matter for
the properties below), and the embedding models themselves as opaque
functions `String → vector`, exactly as the design treats them.

The Qdrant storage engine is external to the repository.  Its operations
(`collection_exists`, `create_collection`, `delete_collection`, `upsert`,
`query_points` with prefetch, `scroll`, `count`) are modelled here from the
documented functional contract the code relies on: a hybrid `query_points`
call runs each prefetch as a top-K search in its named space, takes the
deduplicated union of the candidate sets, re-scores it with the main query's
comparator (max-similarity for the multivector space), and returns the top
`limit` by descending score.
-/

/-- Dense vector: fixed-width float vector, components abstracted to `Int`. -/
abbrev DenseVec := List Int

/-- Sparse vector: (term id, weight) pairs, as produced by the bm25 model. -/
abbrev SparseVec := List (Nat × Int)

/-- Late-interaction multivector: one fixed-width vector per input token. -/
abbrev LateVec := List (List Int)

/-- A stored payload: a string-keyed mapping (the code stores `{"text": …}`). -/
abbrev Payload := List (String × String)

/-- The three vectors attached to one stored point.  `insert_into_qdrant`
always constructs all three entries of the `vector` mapping. -/
structure VectorTriple where
  dense : DenseVec
  sparse : SparseVec
  late : LateVec
deriving DecidableEq

/-- One stored point.  The freshly generated uuid id is modelled as a `Nat`. -/
structure Point where
  pid : Nat
  vector : VectorTriple
  payload : Payload
deriving DecidableEq

/-- The named vector mapping of a stored point, exactly the dict built in
`insert_into_qdrant` (index.py lines 72-76): always the three named spaces. -/
def Point.namedVectors (p : Point) : List (String × (DenseVec ⊕ SparseVec ⊕ LateVec)) :=
  [("all-MiniLM-L6-v2", Sum.inl p.vector.dense),
   ("bm25", Sum.inr (Sum.inl p.vector.sparse)),
   ("colbertv2.0", Sum.inr (Sum.inr p.vector.late))]

/-- Distance metric declared for a dense space (the code only uses cosine). -/
inductive Distance
  | cosine
deriving DecidableEq

/-- Multivector comparator (the code only uses max-similarity). -/
inductive MultiComparator
  | maxSim
deriving DecidableEq

/-- Sparse-space weighting modifier (the code only uses IDF). -/
inductive SparseModifier
  | idf
deriving DecidableEq

/-- Parameters of one declared dense/multivector space
(`models.VectorParams` in index.py lines 37-48). -/
structure VectorParams where
  size : Nat
  distance : Distance
  multivectorComparator : Option MultiComparator
  hnswM : Option Nat
deriving DecidableEq

/-- Parameters of one declared sparse space (index.py lines 51-53). -/
structure SparseParams where
  modifier : SparseModifier
deriving DecidableEq

/-- The vector-space schema a collection declares at creation. -/
structure Schema where
  denseSpaces : List (String × VectorParams)
  sparseSpaces : List (String × SparseParams)
deriving DecidableEq

/-- A collection: its declared schema and its stored points. -/
structure Collection where
  schema : Schema
  points : List Point
deriving DecidableEq

/-- The storage engine state: named collections. -/
abbrev Store := List (String × Collection)

/-- Model of `client.collection_exists(name)`. -/
def collectionExists (s : Store) (name : String) : Bool :=
  (s.find? (fun kv => kv.1 == name)).isSome

/-- Look a collection up by name. -/
def lookupCollection (s : Store) (name : String) : Option Collection :=
  (s.find? (fun kv => kv.1 == name)).map (fun kv => kv.2)

/-- The points stored under a collection name (empty when absent). -/
def pointsOf (s : Store) (name : String) : List Point :=
  ((lookupCollection s name).map (fun c => c.points)).getD []

/-- Model of `client.count(name)`: number of stored points. -/
def pointCount (s : Store) (name : String) : Nat :=
  (pointsOf s name).length

/-- Model of `client.delete_collection(name)`. -/
def deleteCollection (s : Store) (name : String) : Store :=
  s.filter (fun kv => kv.1 != name)

/-- Model of `client.create_collection(name, …)`: registers a fresh, empty
collection with the given schema. -/
def createCollection (s : Store) (name : String) (schema : Schema) : Store :=
  (name, ⟨schema, []⟩) :: s

/-- Replace the contents of a named collection. -/
def setCollection (s : Store) (name : String) (c : Collection) : Store :=
  (name, c) :: deleteCollection s name

/-- Integer dot product (similarity of two fixed-width vectors). -/
def dotInt (a b : List Int) : Int :=
  (List.zipWith (fun x y => x * y) a b).sum

/-- Maximum of a list of scores, 0 when empty. -/
def maxScore (l : List Int) : Int :=
  l.foldl max 0

/-- Late-interaction (ColBERT) comparator: for each query token vector take
the best similarity against the document token vectors, and sum. -/
def maxSim (q d : LateVec) : Int :=
  (q.map (fun qv => maxScore (d.map (fun dv => dotInt qv dv)))).sum

/-- Sparse (bm25) similarity: sum of weight products over shared term ids. -/
def sparseDot (a b : SparseVec) : Int :=
  (a.map (fun iw =>
    (((b.find? (fun jw => jw.1 == iw.1)).map (fun jw => iw.2 * jw.2))).getD 0)).sum

/-- Sort score-carrying results by non-increasing score (stable). -/
def sortDesc {α : Type} (l : List (α × Int)) : List (α × Int) :=
  l.insertionSort (fun a b => b.2 ≤ a.2)

/-- One first-stage prefetch request (`models.Prefetch(query=…, using=…,
limit=…)`): a nearest-neighbor search in one named space, capped at `limit`. -/
inductive PrefetchQuery
  | dense (v : DenseVec) (limit : Nat)
  | sparse (v : SparseVec) (limit : Nat)

/-- The cap of a prefetch request. -/
def PrefetchQuery.cap : PrefetchQuery → Nat
  | .dense _ lim => lim
  | .sparse _ lim => lim

/-- Which named space a prefetch request searches. -/
def PrefetchQuery.space : PrefetchQuery → String
  | .dense _ _ => "all-MiniLM-L6-v2"
  | .sparse _ _ => "bm25"

/-- Run one prefetch: score every stored point in the requested space, order
by descending score, keep the top `limit` candidates. -/
def runPrefetch (pts : List Point) : PrefetchQuery → List Point
  | .dense v lim => ((sortDesc (pts.map (fun p => (p, dotInt v p.vector.dense)))).map (fun pr => pr.1)).take lim
  | .sparse v lim => ((sortDesc (pts.map (fun p => (p, sparseDot v p.vector.sparse)))).map (fun pr => pr.1)).take lim

/-- Deduplicate candidates by point id, keeping first occurrences. -/
def dedupGo (seen : List Nat) : List Point → List Point
  | [] => []
  | p :: ps => if p.pid ∈ seen then dedupGo seen ps else p :: dedupGo (p.pid :: seen) ps

/-- Deduplicated union of candidate lists (first occurrence wins). -/
def dedupById (l : List Point) : List Point :=
  dedupGo [] l

/-- Model of `client.query_points(collection, query=late, using="colbertv2.0",
prefetch=…, limit=…)`: run the prefetches, take the deduplicated union of the
candidate sets, re-score it with the late-interaction comparator, order by
descending re-rank score, truncate to `limit`. -/
def queryPoints (pts : List Point) (lateQ : LateVec) (pf : List PrefetchQuery)
    (limit : Nat) : List (Point × Int) :=
  let cands := dedupById ((pf.map (runPrefetch pts)).flatten)
  (sortDesc (cands.map (fun p => (p, maxSim lateQ p.vector.late)))).take limit

/-- Model of `client.scroll(collection, limit=n)`: the first page of at most
`n` stored points, in storage order. -/
def scrollPage (pts : List Point) (limit : Nat) : List Point :=
  pts.take limit

/-- The three query-side embedding models (`query_embed` of the dense, bm25
and late-interaction models), treated as opaque deterministic functions. -/
structure Embedders where
  dense : String → DenseVec
  sparse : String → SparseVec
  late : String → LateVec

/-- The three passage-side embedding models (`embed`), likewise opaque. -/
structure PassageEmbedders where
  dense : String → DenseVec
  sparse : String → SparseVec
  late : String → LateVec

namespace QdrantRetriever

/-- Error surfaced by the storage client when the collection is absent. -/
inductive RetrieveError
  | notFound
deriving DecidableEq

/-- Model of `QdrantRetriever._check_collection` (qdrant_retriever.py lines
22-27): it only prints an informational message — a missing collection is
logged, not raised.  (Source quotes around the name are elided.) -/
def check_collection (s : Store) (name : String) : String :=
  if collectionExists s name then
    "[INFO] Collection " ++ name ++ " exists with " ++ toString (pointCount s name) ++ "."
  else
    "[INFO] Collection " ++ name ++ " does not exist. Please create it first."

/-- The prefetch list built in `QdrantRetriever.retrieve` (lines 36-47):
dense space capped at 20, sparse space capped at 20.  `src/search.py` lines
27-38 build the identical list. -/
def prefetchFor (dq : DenseVec) (sq : SparseVec) : List PrefetchQuery :=
  [.dense dq 20, .sparse sq 20]

/-- The scored result list of `QdrantRetriever.retrieve` (lines 29-57): embed
the query three ways, then issue the hybrid `query_points` call.  The source
default for `limit` is 10. -/
def retrieveScored (E : Embedders) (pts : List Point) (query : String)
    (limit : Nat) : List (Point × Int) :=
  queryPoints pts (E.late query) (prefetchFor (E.dense query) (E.sparse query)) limit

/-- Model of `QdrantRetriever.retrieve` (lines 29-61): the payloads of the
query result, in result order. -/
def retrieve (E : Embedders) (pts : List Point) (query : String)
    (limit : Nat) : List Payload :=
  (retrieveScored E pts query limit).map (fun pr => pr.1.payload)

/-- Model of `QdrantRetriever.retrieve` run against a store by collection
name.  The first component counts the query-embedding computations performed
before the storage call: lines 31-33 compute all three embeddings
unconditionally, and only then does `query_points` fail when the collection
is absent. -/
def retrieveE (E : Embedders) (s : Store) (name query : String)
    (limit : Nat) : Nat × Except RetrieveError (List Payload) :=
  (3, match lookupCollection s name with
      | none => .error .notFound
      | some c =>
        .ok ((queryPoints c.points (E.late query)
          (prefetchFor (E.dense query) (E.sparse query)) limit).map (fun pr => pr.1.payload)))

/-- Model of `QdrantRetriever._format_payload` (lines 76-80). -/
def format_payload (p : Payload) : String :=
  String.intercalate "\n" (p.map (fun kv => kv.1 ++ ": " ++ kv.2))

/-- Model of `QdrantRetriever.get_context_string` (lines 63-74). -/
def get_context_string (E : Embedders) (pts : List Point) (query : String)
    (limit : Nat) : String :=
  if (retrieve E pts query limit).isEmpty then
    "No relevant information found."
  else
    String.intercalate "\n\n"
      ((retrieve E pts query limit).enum.map (fun ip =>
        "Document " ++ toString (ip.1 + 1) ++ ":\n" ++ format_payload ip.2))

end QdrantRetriever

namespace RAGChatbot

/-- Failure raised by `RAGChatbot.__init__` when the collection is absent. -/
inductive InitError
  | collectionMissing
deriving DecidableEq

/-- Model of `RAGChatbot.__init__` (generation.py lines 12-16): raise when
the collection does not exist.  The check happens before the embedding
models are initialized. -/
def init (s : Store) (name : String) : Except InitError Unit :=
  if collectionExists s name then .ok () else .error .collectionMissing

/-- The prefetch list built in `RAGChatbot._retrieve_context` (lines 30-41):
dense space capped at 10, sparse space capped at 10. -/
def prefetchFor (dq : DenseVec) (sq : SparseVec) : List PrefetchQuery :=
  [.dense dq 10, .sparse sq 10]

/-- The scored result list of `RAGChatbot._retrieve_context` (lines 43-50):
the hybrid `query_points` call with final limit 5. -/
def retrieveContextScored (pts : List Point) (dv : DenseVec) (sv : SparseVec)
    (lv : LateVec) : List (Point × Int) :=
  queryPoints pts lv (prefetchFor dv sv) 5

/-- Model of `payload.get("text", str(payload))` (lines 52-54 and 81): the
`text` entry when present, otherwise a rendering of the whole payload (the
exact Python `str(dict)` formatting is abstracted). -/
def payloadText (p : Payload) : String :=
  match p.lookup "text" with
  | some t => t
  | none => String.intercalate ", " (p.map (fun kv => kv.1 ++ ": " ++ kv.2))

/-- Model of `RAGChatbot._retrieve_context` (lines 29-55): the payload texts
of the query result joined by blank lines. -/
def retrieve_context (pts : List Point) (dv : DenseVec) (sv : SparseVec)
    (lv : LateVec) : String :=
  String.intercalate "\n\n"
    ((retrieveContextScored pts dv sv lv).map (fun pr => payloadText pr.1.payload))

/-- The chunks `summarize_full_document` considers (lines 75-81): a single
`scroll` call with page size 1000, so only the first page of stored points. -/
def summarizeChunks (pts : List Point) : List String :=
  (scrollPage pts 1000).map (fun p => payloadText p.payload)

/-- The truncation loop of `summarize_full_document` (lines 83-92): keep
whole chunks in storage order while the running token total stays within the
budget; stop at the first chunk that does not fit. -/
def takeFit (tokLen : String → Nat) (budget : Nat) : Nat → List String → List String
  | _, [] => []
  | total, c :: cs =>
    if total + tokLen c ≤ budget then c :: takeFit tokLen budget (total + tokLen c) cs
    else []

/-- Total token count of a chunk list, per the tokenizer `tokLen`. -/
def tokenSum (tokLen : String → Nat) (l : List String) : Nat :=
  (l.map tokLen).sum

/-- The document text `summarize_full_document` forwards to generation
(lines 83-94): the included chunks, each followed by a blank line.  The
source default for `maxTokens` is 120000. -/
def summarizeDocumentText (tokLen : String → Nat) (pts : List Point)
    (maxTokens : Nat) : String :=
  String.join ((takeFit tokLen maxTokens 0 (summarizeChunks pts)).map (fun c => c ++ "\n\n"))

end RAGChatbot

namespace QdrantRAGUploader

/-- One loaded chunk (index.py lines 23-27): the `content` field is used. -/
structure Chunk where
  content : String
deriving DecidableEq

/-- The vector-space schema declared by `setup_collection` (lines 34-55):
dense cosine 384, late-interaction cosine 128 with max-sim comparator and
hnsw m=0, sparse with IDF modifier. -/
def ragSchema : Schema :=
  ⟨[("all-MiniLM-L6-v2", ⟨384, .cosine, none, none⟩),
    ("colbertv2.0", ⟨128, .cosine, some .maxSim, some 0⟩)],
   [("bm25", ⟨.idf⟩)]⟩

/-- Model of `QdrantRAGUploader.setup_collection` (lines 29-56): delete the
collection when it exists, then create it afresh with `ragSchema`. -/
def setup_collection (s : Store) (name : String) : Store :=
  createCollection (if collectionExists s name then deleteCollection s name else s)
    name ragSchema

/-- The points built by `insert_into_qdrant` (lines 67-78) from the loaded
chunks and the passage embeddings of `embed_texts` (lines 58-62): one point
per chunk, fresh id, payload `{"text": content}`, all three vectors set.  No
validation or rejection is applied to the vectors. -/
def chunksToPoints (E : PassageEmbedders) (chunks : List Chunk) : List Point :=
  chunks.enum.map (fun jc =>
    ⟨jc.1, ⟨E.dense jc.2.content, E.sparse jc.2.content, E.late jc.2.content⟩,
     [("text", jc.2.content)]⟩)

/-- Number of upsert batches for `n` points at batch size `bs`
(`range(0, n, batch_size)` in line 66). -/
def numBatches (n bs : Nat) : Nat :=
  (n + bs - 1) / bs

/-- The batches of the point list at batch size `bs` (lines 66-78). -/
def batchesOf (pts : List Point) (bs : Nat) : List (List Point) :=
  (List.range (numBatches pts.length bs)).map (fun i => (pts.drop (i * bs)).take bs)

/-- The sequential upsert loop of `insert_into_qdrant` (lines 64-80), with
the storage outcome of each batch upsert given by `ok`: batches are upserted
in order; the first failing batch stops the loop with the exception flag,
leaving the previously upserted points in place. -/
def insertGo (ok : Nat → Bool) : List (List Point) → Nat → List Point → List Point × Bool
  | [], _, st => (st, true)
  | b :: rest, i, st => if ok i then insertGo ok rest (i + 1) (st ++ b) else (st, false)

/-- The external outcomes an indexing run is exposed to: the result of
reading and parsing the chunk file, whether the collection setup call and the
embedding-model calls succeed, the per-batch storage upsert outcomes, and the
passage embedders. -/
structure RunEnv where
  loadResult : Except String (List Chunk)
  setupOk : Bool
  embedOk : Bool
  upsertOk : Nat → Bool
  emb : PassageEmbedders

/-- Model of `QdrantRAGUploader.run` (lines 82-91): `load_chunks`,
`setup_collection`, `embed_texts`, `insert_into_qdrant` in order, every
internal exception caught and converted to `false`; returns the boolean
result together with the resulting store state.  The default batch size is
10. -/
def run (env : RunEnv) (s0 : Store) (name : String) : Bool × Store :=
  match env.loadResult with
  | .error _ => (false, s0)
  | .ok chunks =>
    if env.setupOk then
      let s1 := setup_collection s0 name
      if env.embedOk then
        let pts := chunksToPoints env.emb chunks
        let res := insertGo env.upsertOk (batchesOf pts 10) 0 []
        (res.2, setCollection s1 name ⟨ragSchema, res.1⟩)
      else (false, s1)
    else (false, s0)

end QdrantRAGUploader

/-! ### Concrete instances used by witnesses and counterexamples -/

/-- A trivial query-side embedder assignment (the embedding models are
opaque; any assignment is admissible). -/
def Etriv : Embedders :=
  ⟨fun _ => [1], fun _ => [(0, 1)], fun _ => [[1]]⟩

/-- A trivial passage-side embedder assignment. -/
def Ep : PassageEmbedders :=
  ⟨fun _ => [1], fun _ => [(0, 1)], fun _ => [[1]]⟩

/-- A passage-side embedder whose sparse model returns an empty vector (as
bm25 does on text with no indexable terms). -/
def EemptySparse : PassageEmbedders :=
  ⟨fun _ => [1], fun _ => [], fun _ => [[1]]⟩

/-- A single stored point with payload text `hello`. -/
def pt1 : Point := ⟨0, ⟨[1], [(0, 1)], [[1]]⟩, [("text", "hello")]⟩

/-- A stored point with payload text `a`. -/
def ptA : Point := ⟨0, ⟨[1], [(0, 1)], [[1]]⟩, [("text", "a")]⟩

/-- A stored point with payload text `b`. -/
def ptB : Point := ⟨1, ⟨[1], [(0, 1)], [[1]]⟩, [("text", "b")]⟩

/-- A collection of 1001 stored points: 1000 copies of `ptA` then `ptB`. -/
def bigPts : List Point := List.replicate 1000 ptA ++ [ptB]

/-- Two stored points whose texts have 2 and 3 tokens under the
character-count tokenizer. -/
def ptsTok : List Point :=
  [⟨0, ⟨[1], [(0, 1)], [[1]]⟩, [("text", "aa")]⟩,
   ⟨1, ⟨[1], [(0, 1)], [[1]]⟩, [("text", "bbb")]⟩]

/-- Fifteen identical chunks: two upsert batches at batch size 10. -/
def chunks15 : List QdrantRAGUploader.Chunk := List.replicate 15 ⟨"a"⟩

/-- An indexing environment in which every external step succeeds. -/
def okEnv (chunks : List QdrantRAGUploader.Chunk) : QdrantRAGUploader.RunEnv :=
  ⟨.ok chunks, true, true, fun _ => true, Ep⟩

/-- An indexing environment for `chunks15` in which batch 0 upserts
successfully and batch 1 fails. -/
def failEnv : QdrantRAGUploader.RunEnv :=
  ⟨.ok chunks15, true, true, fun i => i == 0, Ep⟩

/-! ### Helper lemmas -/

/-- The descending sort produces a list ordered by non-increasing score. -/
theorem sortDesc_sorted {α : Type} (l : List (α × Int)) :
    List.Pairwise (fun a b : α × Int => b.2 ≤ a.2) (sortDesc l) := by
  have h := @List.sorted_insertionSort (α × Int) (fun a b => b.2 ≤ a.2)
    (fun a b => inferInstanceAs (Decidable (b.2 ≤ a.2)))
    ⟨fun a b => le_total b.2 a.2⟩
    ⟨fun a b c h1 h2 => le_trans h2 h1⟩ l
  exact h

/-- A `queryPoints` result is ordered by non-increasing score. -/
theorem queryPoints_sorted (pts : List Point) (lateQ : LateVec)
    (pf : List PrefetchQuery) (limit : Nat) :
    List.Pairwise (fun a b : Point × Int => b.2 ≤ a.2) (queryPoints pts lateQ pf limit) := by
  unfold queryPoints
  exact List.Pairwise.sublist (List.take_sublist _ _) (sortDesc_sorted _)

/-- A `queryPoints` result has at most `limit` entries. -/
theorem queryPoints_length_le (pts : List Point) (lateQ : LateVec)
    (pf : List PrefetchQuery) (limit : Nat) :
    (queryPoints pts lateQ pf limit).length ≤ limit := by
  unfold queryPoints
  calc (List.take limit _).length ≤ limit := by
        rw [List.length_take]; exact min_le_left _ _

/-- Looking a name up right after setting it yields the new contents. -/
theorem lookupCollection_setCollection (s : Store) (name : String) (c : Collection) :
    lookupCollection (setCollection s name c) name = some c := by
  simp [lookupCollection, setCollection, List.find?]

/-- Looking a name up right after creating it yields the fresh collection. -/
theorem lookupCollection_createCollection (s : Store) (name : String) (schema : Schema) :
    lookupCollection (createCollection s name schema) name = some ⟨schema, []⟩ := by
  simp [lookupCollection, createCollection, List.find?]

namespace QdrantRAGUploader

/-- If the first `b` batch upserts succeed and batch `b` fails, the loop
stops with the failure flag and exactly the points of the first `b` batches
appended to the store. -/
theorem insertGo_fail (ok : Nat → Bool) :
    ∀ (bs : List (List Point)) (b i0 : Nat) (st : List Point),
      b < bs.length → (∀ i, i < b → ok (i0 + i) = true) → ok (i0 + b) = false →
      insertGo ok bs i0 st = (st ++ (bs.take b).flatten, false) := by
  intro bs
  induction bs with
  | nil => intro b i0 st hb; exact absurd hb (by simp)
  | cons hd tl ih =>
    intro b i0 st hb hok hfail
    cases b with
    | zero =>
      simp only [Nat.add_zero] at hfail
      simp [insertGo, hfail]
    | succ b =>
      have h0 : ok i0 = true := by
        have := hok 0 (Nat.succ_pos b); simpa using this
      have hok2 : ∀ i, i < b → ok (i0 + 1 + i) = true := by
        intro i hi
        have := hok (i + 1) (Nat.succ_lt_succ hi)
        simpa [Nat.add_assoc, Nat.add_comm 1 i] using this
      have hfail2 : ok (i0 + 1 + b) = false := by
        simpa [Nat.add_assoc, Nat.add_comm 1 b] using hfail
      have hb2 : b < tl.length := Nat.lt_of_succ_lt_succ (by simpa using hb)
      simp only [insertGo, h0, if_true]
      rw [ih b (i0 + 1) (st ++ hd) hb2 hok2 hfail2]
      simp [List.append_assoc]

/-- The loop reports success exactly when every batch upsert succeeds. -/
theorem insertGo_flag (ok : Nat → Bool) :
    ∀ (bs : List (List Point)) (i0 : Nat) (st : List Point),
      (insertGo ok bs i0 st).2 = true ↔ ∀ i, i < bs.length → ok (i0 + i) = true := by
  intro bs
  induction bs with
  | nil => intro i0 st; simp [insertGo]
  | cons hd tl ih =>
    intro i0 st
    by_cases h0 : ok i0 = true
    · simp only [insertGo, h0, if_true]
      rw [ih (i0 + 1) (st ++ hd)]
      constructor
      · intro h i hi
        cases i with
        | zero => simpa using h0
        | succ i =>
          have := h i (Nat.lt_of_succ_lt_succ (by simpa using hi))
          simpa [Nat.add_assoc, Nat.add_comm 1 i] using this
      · intro h i hi
        have := h (i + 1) (by simpa using Nat.succ_lt_succ hi)
        simpa [Nat.add_assoc, Nat.add_comm 1 i] using this
    · simp only [insertGo, h0, if_false]
      constructor
      · intro h; exact absurd h (by simp)
      · intro h
        have := h 0 (by simp)
        simp only [Nat.add_zero] at this
        exact absurd this h0

/-- When all batches succeed the loop appends every batch and reports true. -/
theorem insertGo_success (ok : Nat → Bool) :
    ∀ (bs : List (List Point)) (i0 : Nat) (st : List Point),
      (∀ i, i < bs.length → ok (i0 + i) = true) →
      insertGo ok bs i0 st = (st ++ bs.flatten, true) := by
  intro bs
  induction bs with
  | nil => intro i0 st _; simp [insertGo]
  | cons hd tl ih =>
    intro i0 st hok
    have h0 : ok i0 = true := by have := hok 0 (by simp); simpa using this
    have hok2 : ∀ i, i < tl.length → ok (i0 + 1 + i) = true := by
      intro i hi
      have := hok (i + 1) (by simpa using Nat.succ_lt_succ hi)
      simpa [Nat.add_assoc, Nat.add_comm 1 i] using this
    simp only [insertGo, h0, if_true]
    rw [ih (i0 + 1) (st ++ hd) hok2]
    simp [List.append_assoc]

end QdrantRAGUploader

namespace RAGChatbot

/-- The chunks kept by the truncation loop form an initial segment of the
scanned chunks. -/
theorem takeFit_isPrefixOf (tokLen : String → Nat) (budget : Nat) :
    ∀ (cs : List String) (total : Nat),
      takeFit tokLen budget total cs <+: cs := by
  intro cs
  induction cs with
  | nil => intro total; simp [takeFit]
  | cons c cs ih =>
    intro total
    by_cases h : total + tokLen c ≤ budget
    · simp only [takeFit, h, if_true]
      obtain ⟨t, ht⟩ := ih (total + tokLen c)
      exact ⟨t, by simp [ht]⟩
    · simp only [takeFit, h, if_false]
      exact ⟨c :: cs, rfl⟩

/-- The truncation loop never exceeds the token budget. -/
theorem takeFit_tokenSum_le (tokLen : String → Nat) (budget : Nat) :
    ∀ (cs : List String) (total : Nat), total ≤ budget →
      total + tokenSum tokLen (takeFit tokLen budget total cs) ≤ budget := by
  intro cs
  induction cs with
  | nil => intro total h; simpa [takeFit, tokenSum] using h
  | cons c cs ih =>
    intro total h
    by_cases hc : total + tokLen c ≤ budget
    · simp only [takeFit, hc, if_true]
      have := ih (total + tokLen c) hc
      simp only [tokenSum, List.map_cons, List.sum_cons] at this ⊢
      omega
    · simp only [takeFit, hc, if_false]
      simpa [tokenSum] using h

end RAGChatbot

/-! ### Claim theorems -/

/-- C1: for every query string and every limit `k`, `retrieve(query,
final_limit=k)` returns at most `k` payloads, namely the payloads of the
scored result list, and that scored list is ordered by non-increasing
late-interaction re-rank score. -/
theorem retrieve_result_bound_and_order (E : Embedders) (pts : List Point)
    (query : String) (k : Nat) :
    (QdrantRetriever.retrieve E pts query k).length ≤ k ∧
    QdrantRetriever.retrieve E pts query k =
      (QdrantRetriever.retrieveScored E pts query k).map (fun pr => pr.1.payload) ∧
    List.Pairwise (fun a b : Point × Int => b.2 ≤ a.2)
      (QdrantRetriever.retrieveScored E pts query k) := by
  refine ⟨?_, rfl, ?_⟩
  · unfold QdrantRetriever.retrieve
    rw [List.length_map]
    exact queryPoints_length_le _ _ _ _
  · exact queryPoints_sorted _ _ _ _

/-- C2: both retrieval paths issue exactly two first-stage prefetch searches
— one against the dense space, one against the sparse space — capped at 20
in the interactive/standalone path (`QdrantRetriever.retrieve`,
`src/search.py`) and at 10 in the chat pipeline
(`RAGChatbot._retrieve_context`), and the hybrid query re-scores the
deduplicated union of the two candidate sets with the late-interaction
comparator before truncating. -/
theorem two_prefetches_dedup_rerank (E : Embedders) (pts : List Point)
    (query : String) (k : Nat) (dv : DenseVec) (sv : SparseVec) (lv : LateVec) :
    (QdrantRetriever.prefetchFor dv sv).length = 2 ∧
    QdrantRetriever.prefetchFor dv sv = [.dense dv 20, .sparse sv 20] ∧
    RAGChatbot.prefetchFor dv sv = [.dense dv 10, .sparse sv 10] ∧
    QdrantRetriever.retrieveScored E pts query k =
      (sortDesc ((dedupById (runPrefetch pts (.dense (E.dense query) 20) ++
          runPrefetch pts (.sparse (E.sparse query) 20))).map
        (fun p => (p, maxSim (E.late query) p.vector.late)))).take k ∧
    RAGChatbot.retrieveContextScored pts dv sv lv =
      (sortDesc ((dedupById (runPrefetch pts (.dense dv 10) ++
          runPrefetch pts (.sparse sv 10))).map
        (fun p => (p, maxSim lv p.vector.late)))).take 5 := by
  refine ⟨rfl, rfl, rfl, ?_, ?_⟩
  · simp [QdrantRetriever.retrieveScored, QdrantRetriever.prefetchFor, queryPoints]
  · simp [RAGChatbot.retrieveContextScored, RAGChatbot.prefetchFor, queryPoints]

/-- C10: when `retrieve` returns no payloads, `get_context_string` returns
the fixed sentinel (a non-empty string); when it returns payloads, the
result is the payloads in rank order with numbered `Document i` headers. -/
theorem get_context_string_cases (E : Embedders) (pts : List Point)
    (query : String) (k : Nat) :
    (QdrantRetriever.retrieve E pts query k = [] →
      QdrantRetriever.get_context_string E pts query k = "No relevant information found." ∧
      QdrantRetriever.get_context_string E pts query k ≠ "") ∧
    (QdrantRetriever.retrieve E pts query k ≠ [] →
      QdrantRetriever.get_context_string E pts query k =
        String.intercalate "\n\n" ((QdrantRetriever.retrieve E pts query k).enum.map
          (fun ip => "Document " ++ toString (ip.1 + 1) ++ ":\n" ++
            QdrantRetriever.format_payload ip.2))) := by
  constructor
  · intro h
    constructor
    · simp [QdrantRetriever.get_context_string, h]
    · simp [QdrantRetriever.get_context_string, h]
  · intro h
    simp [QdrantRetriever.get_context_string, List.isEmpty_iff, h]

/-- Witness for C10: an empty store yields the sentinel, a one-point store
yields the numbered document listing. -/
theorem get_context_string_cases_witness :
    (QdrantRetriever.get_context_string Etriv [] "q" 5 = "No relevant information found." ∧
     QdrantRetriever.get_context_string Etriv [] "q" 5 ≠ "") ∧
    QdrantRetriever.get_context_string Etriv [pt1] "q" 5 =
      String.intercalate "\n\n" ((QdrantRetriever.retrieve Etriv [pt1] "q" 5).enum.map
        (fun ip => "Document " ++ toString (ip.1 + 1) ++ ":\n" ++
          QdrantRetriever.format_payload ip.2)) :=
  ⟨(get_context_string_cases Etriv [] "q" 5).1 rfl,
   (get_context_string_cases Etriv [pt1] "q" 5).2 (by decide)⟩

/-- C3 counterexample: against a store containing no collections, the
standalone retriever still performs all three query-embedding computations
(3, not 0) before the storage query fails with not-found — retrieval does
not fail fast before embedding work. -/
theorem retrieve_embeds_before_notfound :
    (QdrantRetriever.retrieveE Etriv [] "myRag" "hello" 10).1 = 3 ∧
    (QdrantRetriever.retrieveE Etriv [] "myRag" "hello" 10).1 ≠ 0 ∧
    (QdrantRetriever.retrieveE Etriv [] "myRag" "hello" 10).2 =
      .error QdrantRetriever.RetrieveError.notFound := by
  refine ⟨rfl, by decide, rfl⟩

/-- C3 (amended): when the collection does not exist, the chat pipeline
fails fast at construction (`RAGChatbot.__init__` raises before the
embedding models are touched); the standalone retriever only logs an
informational message at construction, and its `retrieve` computes all three
query embeddings before the storage query fails with a not-found condition. -/
theorem missing_collection_behavior (E : Embedders) (s : Store)
    (name query : String) (k : Nat) (h : collectionExists s name = false) :
    RAGChatbot.init s name = .error .collectionMissing ∧
    QdrantRetriever.check_collection s name =
      "[INFO] Collection " ++ name ++ " does not exist. Please create it first." ∧
    QdrantRetriever.retrieveE E s name query k = (3, .error .notFound) := by
  have hl : lookupCollection s name = none := by
    unfold collectionExists at h
    unfold lookupCollection
    cases hf : s.find? (fun kv => kv.1 == name) with
    | none => rfl
    | some kv => rw [hf] at h; simp at h
  refine ⟨?_, ?_, ?_⟩
  · simp [RAGChatbot.init, h]
  · simp [QdrantRetriever.check_collection, h]
  · simp [QdrantRetriever.retrieveE, hl]

/-- Witness for C3 (amended) at the empty store. -/
theorem missing_collection_behavior_witness :
    RAGChatbot.init [] "myRag" = .error .collectionMissing ∧
    QdrantRetriever.check_collection [] "myRag" =
      "[INFO] Collection " ++ "myRag" ++ " does not exist. Please create it first." ∧
    QdrantRetriever.retrieveE Etriv [] "myRag" "q" 10 = (3, .error .notFound) :=
  missing_collection_behavior Etriv [] "myRag" "q" 10 rfl

/-- C7: running the destructive collection setup twice leaves a collection
with zero points and the same declared schema as after the first run: dense
cosine 384, late-interaction max-sim cosine 128, sparse IDF-weighted. -/
theorem setup_collection_recreate_idempotent (s : Store) (name : String) :
    lookupCollection
      (QdrantRAGUploader.setup_collection (QdrantRAGUploader.setup_collection s name) name)
      name = some ⟨QdrantRAGUploader.ragSchema, []⟩ ∧
    lookupCollection (QdrantRAGUploader.setup_collection s name) name =
      some ⟨QdrantRAGUploader.ragSchema, []⟩ ∧
    pointCount
      (QdrantRAGUploader.setup_collection (QdrantRAGUploader.setup_collection s name) name)
      name = 0 ∧
    QdrantRAGUploader.ragSchema.denseSpaces.lookup "all-MiniLM-L6-v2" =
      some ⟨384, .cosine, none, none⟩ ∧
    QdrantRAGUploader.ragSchema.denseSpaces.lookup "colbertv2.0" =
      some ⟨128, .cosine, some .maxSim, some 0⟩ ∧
    QdrantRAGUploader.ragSchema.sparseSpaces.lookup "bm25" = some ⟨.idf⟩ := by
  have h : ∀ s2 : Store,
      lookupCollection (QdrantRAGUploader.setup_collection s2 name) name =
        some ⟨QdrantRAGUploader.ragSchema, []⟩ := fun s2 =>
    lookupCollection_createCollection _ _ _
  refine ⟨h _, h _, ?_, by decide, by decide, by decide⟩
  unfold pointCount pointsOf
  rw [h]
  rfl

/-- C9 counterexample: `summarize_full_document` issues a single `scroll`
call with page size 1000, so in a collection of 1001 points the 1001st
point's payload text is never considered. -/
theorem summarize_misses_points_beyond_first_page :
    ptB ∈ bigPts ∧ bigPts.length = 1001 ∧
    RAGChatbot.payloadText ptB.payload = "b" ∧
    RAGChatbot.payloadText ptB.payload ∉ RAGChatbot.summarizeChunks bigPts := by
  have hbig : bigPts.length = 1001 := by
    show (List.replicate 1000 ptA ++ [ptB]).length = 1001
    rw [List.length_append, List.length_replicate]
    rfl
  refine ⟨List.mem_append_right _ (List.mem_singleton.mpr rfl), hbig, rfl, ?_⟩
  have h1 : scrollPage bigPts 1000 = List.replicate 1000 ptA := by
    have hlen : (List.replicate 1000 ptA).length = 1000 := List.length_replicate 1000 ptA
    calc scrollPage bigPts 1000
        = List.take 1000 (List.replicate 1000 ptA ++ [ptB]) := rfl
      _ = List.take (List.replicate 1000 ptA).length (List.replicate 1000 ptA ++ [ptB]) := by
          rw [hlen]
      _ = List.replicate 1000 ptA := List.take_left _ _
  intro hmem
  unfold RAGChatbot.summarizeChunks at hmem
  rw [h1, List.map_replicate] at hmem
  have := (List.mem_replicate.mp hmem).2
  exact absurd this (by decide)

/-- C9 (amended): the scan is a single page of at most 1000 points; for
every collection holding at most 1000 points, every stored point's payload
text is considered for concatenation. -/
theorem summarize_scans_all_when_small (pts : List Point)
    (h : pts.length ≤ 1000) :
    RAGChatbot.summarizeChunks pts = pts.map (fun p => RAGChatbot.payloadText p.payload) ∧
    ∀ p, p ∈ pts → RAGChatbot.payloadText p.payload ∈ RAGChatbot.summarizeChunks pts := by
  have he : scrollPage pts 1000 = pts := List.take_of_length_le h
  have hmain : RAGChatbot.summarizeChunks pts =
      pts.map (fun p => RAGChatbot.payloadText p.payload) := by
    unfold RAGChatbot.summarizeChunks
    rw [he]
  refine ⟨hmain, ?_⟩
  intro p hp
  rw [hmain]
  exact List.mem_map_of_mem _ hp

/-- Witness for C9 (amended) on a one-point collection. -/
theorem summarize_scans_all_when_small_witness :
    RAGChatbot.summarizeChunks [pt1] =
      [pt1].map (fun p => RAGChatbot.payloadText p.payload) ∧
    RAGChatbot.payloadText pt1.payload ∈ RAGChatbot.summarizeChunks [pt1] := by
  have h := summarize_scans_all_when_small [pt1] (by decide)
  exact ⟨h.1, h.2 pt1 (List.mem_singleton.mpr rfl)⟩

/-- C4 counterexample: the value `run` returns is only a boolean, so no
function can read the collection point count off the returned result — the
run does not return collection stats.  Two all-success runs with different
chunk counts both return `true` while leaving different point counts. -/
theorem run_result_carries_no_point_count :
    ¬ ∃ g : Bool → Nat, ∀ (env : QdrantRAGUploader.RunEnv) (s0 : Store) (name : String),
      g (QdrantRAGUploader.run env s0 name).1 =
        pointCount (QdrantRAGUploader.run env s0 name).2 name := by
  rintro ⟨g, hg⟩
  have h1 := hg (okEnv [⟨"a"⟩]) [] "c"
  have h2 := hg (okEnv [⟨"a"⟩, ⟨"b"⟩]) [] "c"
  have e1 : (QdrantRAGUploader.run (okEnv [⟨"a"⟩]) [] "c").1 = true := by decide
  have c1 : pointCount (QdrantRAGUploader.run (okEnv [⟨"a"⟩]) [] "c").2 "c" = 1 := by decide
  have e2 : (QdrantRAGUploader.run (okEnv [⟨"a"⟩, ⟨"b"⟩]) [] "c").1 = true := by decide
  have c2 : pointCount (QdrantRAGUploader.run (okEnv [⟨"a"⟩, ⟨"b"⟩]) [] "c").2 "c" = 2 := by decide
  rw [e1, c1] at h1
  rw [e2, c2] at h2
  rw [h1] at h2
  exact absurd h2 (by decide)

/-- C4 (amended): the indexing run is a total function — every internal
failure (load, setup, embedding, any upsert batch) is caught and converted
to the boolean `false`, success to `true`; it never raises past its
boundary, and the boolean is its whole result (it does not carry collection
stats). -/
theorem run_never_raises_boolean_only (env : QdrantRAGUploader.RunEnv)
    (s0 : Store) (name : String) :
    (QdrantRAGUploader.run env s0 name).1 = true ↔
      ∃ chunks, env.loadResult = .ok chunks ∧ env.setupOk = true ∧ env.embedOk = true ∧
        ∀ i, i < (QdrantRAGUploader.batchesOf
            (QdrantRAGUploader.chunksToPoints env.emb chunks) 10).length →
          env.upsertOk i = true := by
  cases hl : env.loadResult with
  | error e =>
    constructor
    · intro h
      exfalso
      simp [QdrantRAGUploader.run, hl] at h
    · rintro ⟨chunks, hc, -⟩
      exact absurd hc (by simp)
  | ok chunks =>
    by_cases hs : env.setupOk = true
    · by_cases he : env.embedOk = true
      · have hrun1 : (QdrantRAGUploader.run env s0 name).1 =
            (QdrantRAGUploader.insertGo env.upsertOk
              (QdrantRAGUploader.batchesOf
                (QdrantRAGUploader.chunksToPoints env.emb chunks) 10) 0 []).2 := by
          simp [QdrantRAGUploader.run, hl, hs, he]
        rw [hrun1, QdrantRAGUploader.insertGo_flag]
        constructor
        · intro h
          exact ⟨chunks, rfl, hs, he, fun i hi => by simpa using h i hi⟩
        · rintro ⟨c2, hc2, -, -, hok⟩
          injection hc2 with hc2
          subst hc2
          intro i hi
          simpa using hok i hi
      · have hrun1 : (QdrantRAGUploader.run env s0 name).1 = false := by
          simp [QdrantRAGUploader.run, hl, hs, he]
        rw [hrun1]
        constructor
        · intro h; exact absurd h (by simp)
        · rintro ⟨c2, -, -, he2, -⟩; exact absurd he2 he
    · have hrun1 : (QdrantRAGUploader.run env s0 name).1 = false := by
        simp [QdrantRAGUploader.run, hl, hs]
      rw [hrun1]
      constructor
      · intro h; exact absurd h (by simp)
      · rintro ⟨c2, -, hs2, -, -⟩; exact absurd hs2 hs

/-- C5: when every upsert batch before `b` succeeds and batch `b` fails,
`run` returns `false` and the points of the earlier successful batches
remain stored — the collection is left partially populated, with no
rollback. -/
theorem index_batch_failure (env : QdrantRAGUploader.RunEnv) (s0 : Store)
    (name : String) (chunks : List QdrantRAGUploader.Chunk) (b : Nat)
    (hload : env.loadResult = .ok chunks) (hsetup : env.setupOk = true)
    (hembed : env.embedOk = true)
    (hb : b < (QdrantRAGUploader.batchesOf
        (QdrantRAGUploader.chunksToPoints env.emb chunks) 10).length)
    (hok : ∀ i, i < b → env.upsertOk i = true)
    (hfail : env.upsertOk b = false) :
    (QdrantRAGUploader.run env s0 name).1 = false ∧
    pointsOf (QdrantRAGUploader.run env s0 name).2 name =
      ((QdrantRAGUploader.batchesOf
        (QdrantRAGUploader.chunksToPoints env.emb chunks) 10).take b).flatten ∧
    ∀ l, l ∈ (QdrantRAGUploader.batchesOf
        (QdrantRAGUploader.chunksToPoints env.emb chunks) 10).take b →
      ∀ p, p ∈ l → p ∈ pointsOf (QdrantRAGUploader.run env s0 name).2 name := by
  have hins := QdrantRAGUploader.insertGo_fail env.upsertOk
    (QdrantRAGUploader.batchesOf (QdrantRAGUploader.chunksToPoints env.emb chunks) 10)
    b 0 [] hb (fun i hi => by simpa using hok i hi) (by simpa using hfail)
  have hrun : QdrantRAGUploader.run env s0 name =
      (false, setCollection (QdrantRAGUploader.setup_collection s0 name) name
        ⟨QdrantRAGUploader.ragSchema,
         ((QdrantRAGUploader.batchesOf
           (QdrantRAGUploader.chunksToPoints env.emb chunks) 10).take b).flatten⟩) := by
    simp [QdrantRAGUploader.run, hload, hsetup, hembed, hins]
  have hpts : pointsOf (QdrantRAGUploader.run env s0 name).2 name =
      ((QdrantRAGUploader.batchesOf
        (QdrantRAGUploader.chunksToPoints env.emb chunks) 10).take b).flatten := by
    rw [hrun]
    unfold pointsOf
    rw [lookupCollection_setCollection]
    rfl
  refine ⟨by rw [hrun], hpts, ?_⟩
  intro l hlmem p hp
  rw [hpts]
  exact List.mem_flatten.mpr ⟨l, hlmem, hp⟩

/-- Witness for C5: fifteen chunks form two batches; batch 0 succeeds and
batch 1 fails, so `run` returns false and batch 0's ten points stay stored. -/
theorem index_batch_failure_witness :
    (QdrantRAGUploader.run failEnv [] "c").1 = false ∧
    pointsOf (QdrantRAGUploader.run failEnv [] "c").2 "c" =
      ((QdrantRAGUploader.batchesOf
        (QdrantRAGUploader.chunksToPoints failEnv.emb chunks15) 10).take 1).flatten ∧
    ∀ l, l ∈ (QdrantRAGUploader.batchesOf
        (QdrantRAGUploader.chunksToPoints failEnv.emb chunks15) 10).take 1 →
      ∀ p, p ∈ l → p ∈ pointsOf (QdrantRAGUploader.run failEnv [] "c").2 "c" :=
  index_batch_failure failEnv [] "c" chunks15 1 rfl rfl rfl (by decide) (by decide)
    (by decide)

/-- C6 counterexample: with a sparse model that returns an empty vector, the
built point has an empty sparse space and is upserted as-is — no rejection
happens before upsert. -/
theorem empty_sparse_point_upserted :
    QdrantRAGUploader.chunksToPoints EemptySparse [⟨"hello"⟩] =
      [⟨0, ⟨[1], [], [[1]]⟩, [("text", "hello")]⟩] ∧
    (QdrantRAGUploader.chunksToPoints EemptySparse [⟨"hello"⟩]).all
      (fun p => p.vector.sparse.isEmpty) = true ∧
    QdrantRAGUploader.insertGo (fun _ => true)
      (QdrantRAGUploader.batchesOf
        (QdrantRAGUploader.chunksToPoints EemptySparse [⟨"hello"⟩]) 10) 0 [] =
      (QdrantRAGUploader.chunksToPoints EemptySparse [⟨"hello"⟩], true) := by
  decide

/-- C6 (amended): `index()` builds exactly one point per chunk — nothing is
rejected — and every built point has all three named vector spaces present
in its vector mapping; but no non-emptiness check exists, so a point whose
sparse (or any) space is empty is upserted unchanged. -/
theorem indexed_points_have_all_spaces (E : PassageEmbedders)
    (chunks : List QdrantRAGUploader.Chunk) :
    (QdrantRAGUploader.chunksToPoints E chunks).length = chunks.length ∧
    ∀ p, p ∈ QdrantRAGUploader.chunksToPoints E chunks →
      (p.namedVectors.lookup "all-MiniLM-L6-v2").isSome = true ∧
      (p.namedVectors.lookup "bm25").isSome = true ∧
      (p.namedVectors.lookup "colbertv2.0").isSome = true := by
  constructor
  · simp [QdrantRAGUploader.chunksToPoints]
  · intro p hp
    exact ⟨rfl, rfl, rfl⟩

/-- Witness for C6 (amended) on a one-chunk batch. -/
theorem indexed_points_have_all_spaces_witness :
    (QdrantRAGUploader.chunksToPoints Ep [⟨"hello"⟩]).length =
      ([⟨"hello"⟩] : List QdrantRAGUploader.Chunk).length ∧
    ((pt1.namedVectors.lookup "all-MiniLM-L6-v2").isSome = true ∧
     (pt1.namedVectors.lookup "bm25").isSome = true ∧
     (pt1.namedVectors.lookup "colbertv2.0").isSome = true) :=
  ⟨(indexed_points_have_all_spaces Ep [⟨"hello"⟩]).1,
   (indexed_points_have_all_spaces Ep [⟨"hello"⟩]).2 pt1 (by decide)⟩

/-- C8: whenever the scanned chunks' total token count exceeds the budget,
the summarization loop keeps an initial segment of whole chunks whose total
token count fits the budget, and the forwarded document text is exactly the
concatenation of those whole chunks — never a partially cut one. -/
theorem summarize_truncation (tokLen : String → Nat) (pts : List Point)
    (budget : Nat)
    (h : budget < RAGChatbot.tokenSum tokLen (RAGChatbot.summarizeChunks pts)) :
    RAGChatbot.takeFit tokLen budget 0 (RAGChatbot.summarizeChunks pts) <+:
      RAGChatbot.summarizeChunks pts ∧
    RAGChatbot.tokenSum tokLen
      (RAGChatbot.takeFit tokLen budget 0 (RAGChatbot.summarizeChunks pts)) ≤ budget ∧
    RAGChatbot.summarizeDocumentText tokLen pts budget =
      String.join ((RAGChatbot.takeFit tokLen budget 0
        (RAGChatbot.summarizeChunks pts)).map (fun c => c ++ "\n\n")) := by
  refine ⟨RAGChatbot.takeFit_isPrefixOf _ _ _ _, ?_, rfl⟩
  have hz := RAGChatbot.takeFit_tokenSum_le tokLen budget
    (RAGChatbot.summarizeChunks pts) 0 (Nat.zero_le _)
  simpa using hz

/-- Witness for C8: texts `aa` and `bbb` under the character tokenizer with
budget 2 — only the whole chunk `aa` is kept. -/
theorem summarize_truncation_witness :
    RAGChatbot.takeFit String.length 2 0 (RAGChatbot.summarizeChunks ptsTok) <+:
      RAGChatbot.summarizeChunks ptsTok ∧
    RAGChatbot.tokenSum String.length
      (RAGChatbot.takeFit String.length 2 0 (RAGChatbot.summarizeChunks ptsTok)) ≤ 2 ∧
    RAGChatbot.summarizeDocumentText String.length ptsTok 2 =
      String.join ((RAGChatbot.takeFit String.length 2 0
        (RAGChatbot.summarizeChunks ptsTok)).map (fun c => c ++ "\n\n")) :=
  summarize_truncation String.length ptsTok 2 (by decide)
